import Mathlib

/-!
# Verification of the mountain-pipeline hydraulic engine

Shallow embedding, over `ℚ`, of the hydraulic computation engine of the
repository (src/core/hidraulica.py, src/core/tramos.py) and of the
energy-trace walk embedded in the piezometric map construction
(src/visualizaciones/mapa_piezometrico.py).

Modelling conventions:
* Python floats are embedded as exact rationals; every decimal literal of the
  source is carried over verbatim (`np.pi` is embedded as the decimal value
  `3.141592653589793` of the float constant).
* The transcendental float functions `np.log10`, `np.sqrt`, the real power
  `x ** y`, and the external scipy root finder `fsolve` are not code of this
  repository; they enter the engine only as opaque numeric maps.  They are
  modelled as the fields of a `RealOps` parameter threaded through the
  definitions.  `fsolve` with `full_output=False` (the only mode the source
  uses) returns a plain number — the solution, or the result of the last
  iteration for an unsuccessful call — and raises nothing; accordingly its
  model is an arbitrary function `(ℚ → ℚ) → ℚ → ℚ` from residual and seed to
  the returned iterate.
* Rational division by zero is total (`x / 0 = 0` in `ℚ`); no theorem below
  evaluates a division whose Python counterpart would raise
  `ZeroDivisionError`.
-/

/-- Opaque numeric primitives used by the engine: the float transcendentals
(`np.log10`, `np.sqrt`, real exponentiation `x ** y`) and the external
scipy root finder `scipy.optimize.fsolve` (residual ↦ seed ↦ returned
iterate, per its documented `full_output=False` contract). -/
structure RealOps where
  log10 : ℚ → ℚ
  sqrt : ℚ → ℚ
  rpow : ℚ → ℚ → ℚ
  fsolve : (ℚ → ℚ) → ℚ → ℚ

/-- Gravitational constant of the source: `g = 9.81` (m/s²). -/
def g : ℚ := 9.81

/-- The float constant `np.pi`, embedded as its decimal literal. -/
def piQ : ℚ := 3.141592653589793

/-- `area_seccion(D)` — cross-sectional area `π·D²/4` (hidraulica.py line 16).
The source body is a single expression with no domain check. -/
def area_seccion (D : ℚ) : ℚ := piQ * D ^ 2 / 4

/-- `velocidad(Q, A) = Q/A` (hidraulica.py line 21). -/
def velocidad (Q A : ℚ) : ℚ := Q / A

/-- `carga_cinetica(v) = v²/(2g)` (hidraulica.py line 26). -/
def carga_cinetica (v : ℚ) : ℚ := v ^ 2 / (2 * g)

/-- `reynolds(rho, v, D, mu) = ρ·v·D/μ` (hidraulica.py line 31). -/
def reynolds (rho v D mu : ℚ) : ℚ := rho * v * D / mu

/-- `f_haaland(Re, epsilon, D)` (hidraulica.py lines 45-55). -/
def f_haaland (ops : RealOps) (Re epsilon D : ℚ) : ℚ :=
  if Re ≤ 0 then 0
  else
    let termino := ops.rpow (epsilon / D / 3.7) 1.11 + 6.9 / Re
    let inv_sqrt_f := -1.8 * ops.log10 termino
    1 / inv_sqrt_f ^ 2

/-- The inner residual `ecuacion(f)` of `f_colebrook`
(hidraulica.py lines 73-77): the guard returns the constant penalty `1.0`
for `f ≤ 0`; otherwise the Colebrook-White residual
`1/√f + 2·log10(ε/D/3.7 + 2.51/(Re·√f))`. -/
def ecuacion (ops : RealOps) (Re epsilon D f : ℚ) : ℚ :=
  if f ≤ 0 then 1
  else 1 / ops.sqrt f +
    2 * ops.log10 (epsilon / D / 3.7 + 2.51 / (Re * ops.sqrt f))

/-- `f_colebrook(Re, epsilon, D)` (hidraulica.py lines 58-80): for `Re ≤ 0`
return `0.0`; otherwise hand the residual and the Haaland seed to `fsolve`
with `full_output=False` and return `float(sol[0])` unconditionally — the
source requests no convergence flag and has no failure branch. -/
def f_colebrook (ops : RealOps) (Re epsilon D : ℚ) : ℚ :=
  if Re ≤ 0 then 0
  else ops.fsolve (ecuacion ops Re epsilon D) (f_haaland ops Re epsilon D)

/-- `f_swamee_jain(Re, epsilon, D)` (hidraulica.py lines 83-92). -/
def f_swamee_jain (ops : RealOps) (Re epsilon D : ℚ) : ℚ :=
  if Re ≤ 0 then 0
  else
    let termino := epsilon / (3.7 * D) + 5.74 / ops.rpow Re 0.9
    0.25 / ops.log10 termino ^ 2

/-- `perdidas_darcy(f, L, D, v) = f·(L/D)·v²/(2g)` (hidraulica.py line 95). -/
def perdidas_darcy (f L D v : ℚ) : ℚ := f * (L / D) * v ^ 2 / (2 * g)

/-- `perdidas_menores(K_total, v) = ΣK·v²/(2g)` (hidraulica.py line 110). -/
def perdidas_menores (K_total v : ℚ) : ℚ := K_total * v ^ 2 / (2 * g)

/-- `carga_total(z, hf, hm) = z + hf + hm` (hidraulica.py line 124). -/
def carga_total (z hf hm : ℚ) : ℚ := z + hf + hm

/-- `potencia_bomba(rho, Q, H) = ρ·g·Q·H/1000` in kW (hidraulica.py line 139). -/
def potencia_bomba (rho Q H : ℚ) : ℚ := rho * g * Q * H / 1000

/-- `kw_a_hp(P_kw) = P_kw / 0.7457` (hidraulica.py line 150). -/
def kw_a_hp (P_kw : ℚ) : ℚ := P_kw / 0.7457

/-- The result dictionary returned by `calcular_tramo`
(hidraulica.py lines 244-263), one field per key. -/
structure Resultado where
  area : ℚ
  velocidad : ℚ
  carga_cinetica : ℚ
  reynolds : ℚ
  f_colebrook : ℚ
  f_haaland : ℚ
  f_swamee_jain : ℚ
  longitud_estacion : ℚ
  perdidas_friccion_colebrook : ℚ
  perdidas_friccion_haaland : ℚ
  perdidas_menores : ℚ
  z_estacion : ℚ
  carga_estacion : ℚ
  carga_total : ℚ
  potencia_kw : ℚ
  potencia_hp : ℚ
  num_estaciones : ℤ
  es_bajada : Bool
  deriving DecidableEq, Repr

/-- `calcular_tramo` (hidraulica.py lines 155-263), line for line:
area, velocity, kinetic head, Reynolds; the three friction factors;
`L_estacion = L / num_estaciones if num_estaciones > 0 else L`;
per-station Darcy losses with the Colebrook and Haaland factors; minor
losses; `z_estacion` with the same `> 0` fallback;
`H_estacion = carga_total(abs(z_estacion), hf_crane, hm)`;
`H_total = H_estacion * num_estaciones`; power zeroed for descending
segments. -/
def calcular_tramo (ops : RealOps) (Q D L z rho mu epsilon K_total : ℚ)
    (num_estaciones : ℤ) (es_bajada : Bool) : Resultado :=
  let A := area_seccion D
  let v := velocidad Q A
  let hv := carga_cinetica v
  let Re := reynolds rho v D mu
  let f_col := f_colebrook ops Re epsilon D
  let f_haa := f_haaland ops Re epsilon D
  let f_swa := f_swamee_jain ops Re epsilon D
  let L_estacion := if num_estaciones > 0 then L / (num_estaciones : ℚ) else L
  let hf_crane := perdidas_darcy f_col L_estacion D v
  let hf_haaland := perdidas_darcy f_haa L_estacion D v
  let hm := perdidas_menores K_total v
  let z_estacion := if num_estaciones > 0 then z / (num_estaciones : ℚ) else z
  let H_estacion := carga_total |z_estacion| hf_crane hm
  let H_total := H_estacion * (num_estaciones : ℚ)
  let P_kw := if es_bajada then 0 else potencia_bomba rho Q H_estacion
  let P_hp := if es_bajada then 0 else kw_a_hp P_kw
  { area := A
    velocidad := v
    carga_cinetica := hv
    reynolds := Re
    f_colebrook := f_col
    f_haaland := f_haa
    f_swamee_jain := f_swa
    longitud_estacion := L_estacion
    perdidas_friccion_colebrook := hf_crane
    perdidas_friccion_haaland := hf_haaland
    perdidas_menores := hm
    z_estacion := z_estacion
    carga_estacion := H_estacion
    carga_total := H_total
    potencia_kw := P_kw
    potencia_hp := P_hp
    num_estaciones := num_estaciones
    es_bajada := es_bajada }

/-- One fitting entry of a segment's `accesorios` list (tramos.py). -/
structure Accesorio where
  nombre : String
  cantidad : ℕ
  K : ℚ
  deriving DecidableEq, Repr

/-- One entry of segment 8's `sub_segmentos` list (tramos.py lines 196-204);
`altura` is `None` on the last entry. -/
structure SubSegmento where
  nombre : String
  distancia : ℚ
  altura : Option ℚ
  deriving DecidableEq, Repr

/-- One segment record of `obtener_definicion_tramos` (tramos.py).
`K_valvula_estrangulamiento` and `sub_segmentos` are the optional keys
present only on some segments; the key `tanque_rompe_presion` is read by the
trace with `.get('tanque_rompe_presion', True)` but is present on no segment,
hence the `Option Bool` field. -/
structure TramoDef where
  distancia : ℚ
  altura : ℚ
  pendiente : ℚ
  longitud_tuberia : ℚ
  z : ℚ
  num_estaciones : ℤ
  es_bajada : Bool
  tipo : String
  accesorios : List Accesorio
  K_total : ℚ
  notas : String
  K_valvula_estrangulamiento : Option ℚ
  sub_segmentos : List SubSegmento
  tanque_rompe_presion : Option Bool
  deriving DecidableEq, Repr

/-- Tramo 1 (tramos.py lines 22-39): river intake, 100 m climb. -/
def tramo1 : TramoDef :=
  { distancia := 182.53
    altura := 100.0
    pendiente := 28.72
    longitud_tuberia := 211.13
    z := 100.0
    num_estaciones := 1
    es_bajada := false
    tipo := "bomba"
    accesorios :=
      [ { nombre := "Entrada al río (proyectada)", cantidad := 1, K := 0.5 }
      , { nombre := "Codos de 30°", cantidad := 2, K := 0.12 }
      , { nombre := "Válvula de retención columpio", cantidad := 0, K := 0.0 }
      , { nombre := "Válvula de compuerta", cantidad := 0, K := 0.0 }
      , { nombre := "Salida a tanque receptor", cantidad := 1, K := 1.0 } ]
    K_total := 1.62
    notas := "Captación desde el río, subida inicial de 100 m."
    K_valvula_estrangulamiento := none
    sub_segmentos := []
    tanque_rompe_presion := none }

/-- Tramo 2 (tramos.py lines 44-62): steep climb, 2 pumping stations. -/
def tramo2 : TramoDef :=
  { distancia := 112.39
    altura := 200.0
    pendiente := 60.67
    longitud_tuberia := 235.42
    z := 200.0
    num_estaciones := 2
    es_bajada := false
    tipo := "bomba"
    accesorios :=
      [ { nombre := "Succión de tanque previo", cantidad := 1, K := 0.5 }
      , { nombre := "Codos de 60°", cantidad := 2, K := 0.375 }
      , { nombre := "Válvula de retención columpio", cantidad := 0, K := 1.5 }
      , { nombre := "Válvula de compuerta", cantidad := 0, K := 0.12 }
      , { nombre := "Salida a tanque receptor", cantidad := 1, K := 1.0 } ]
    K_total := 3.87
    notas := "2 estaciones de bombeo. Pendiente pronunciada (60.67°)."
    K_valvula_estrangulamiento := none
    sub_segmentos := []
    tanque_rompe_presion := none }

/-- Tramo 3 (tramos.py lines 67-85): steep climb, 2 pumping stations. -/
def tramo3 : TramoDef :=
  { distancia := 163.87
    altura := 200.0
    pendiente := 50.67
    longitud_tuberia := 264.56
    z := 200.0
    num_estaciones := 2
    es_bajada := false
    tipo := "bomba"
    accesorios :=
      [ { nombre := "Salida de tanque previo", cantidad := 1, K := 0.5 }
      , { nombre := "Codos de 51°", cantidad := 2, K := 0.28 }
      , { nombre := "Válvula de retención columpio", cantidad := 0, K := 1.5 }
      , { nombre := "Válvula de compuerta", cantidad := 0, K := 0.12 }
      , { nombre := "Salida a tanque receptor", cantidad := 1, K := 1.0 } ]
    K_total := 3.68
    notas := "2 estaciones de bombeo. Cima de la montaña."
    K_valvula_estrangulamiento := none
    sub_segmentos := []
    tanque_rompe_presion := none }

/-- Tramo 4 (tramos.py lines 90-108): flat stretch, small pump. -/
def tramo4 : TramoDef :=
  { distancia := 251.55
    altura := 0.0
    pendiente := 0.0
    longitud_tuberia := 254.55
    z := 0.0
    num_estaciones := 1
    es_bajada := false
    tipo := "bomba"
    accesorios :=
      [ { nombre := "Salida de tanque previo", cantidad := 1, K := 0.5 }
      , { nombre := "Codos de 90° (arreglo al suelo)", cantidad := 2, K := 0.45 }
      , { nombre := "Válvula de retención columpio", cantidad := 0, K := 1.5 }
      , { nombre := "Válvula de compuerta", cantidad := 0, K := 0.12 }
      , { nombre := "Salida a tanque receptor", cantidad := 1, K := 1.0 } ]
    K_total := 4.02
    notas := "Tramo plano. Bomba de 2 kW para evitar sobrecarga."
    K_valvula_estrangulamiento := none
    sub_segmentos := []
    tanque_rompe_presion := none }

/-- Tramo 5 (tramos.py lines 113-131): gravity descent, `z = 0.0` with the
source comment "No se bombea, la gravedad hace el trabajo". -/
def tramo5 : TramoDef :=
  { distancia := 129.05
    altura := -200.0
    pendiente := -57.17
    longitud_tuberia := 235.02
    z := 0.0
    num_estaciones := 1
    es_bajada := true
    tipo := "válvula de estrangulamiento"
    accesorios :=
      [ { nombre := "Salida de tanque previo", cantidad := 1, K := 0.5 }
      , { nombre := "Codos de ángulo dado", cantidad := 2, K := 0.35 }
      , { nombre := "Válvula de compuerta", cantidad := 0, K := 0.12 }
      , { nombre := "Salida a tanque receptor", cantidad := 1, K := 1.0 } ]
    K_total := 2.31
    notas := "Bajada gravitacional. Válvula de estrangulamiento controla velocidad a 1.34 m/s."
    K_valvula_estrangulamiento := none
    sub_segmentos := []
    tanque_rompe_presion := none }

/-- Tramo 6 (tramos.py lines 136-154): gravity descent, throttling valve. -/
def tramo6 : TramoDef :=
  { distancia := 71.33
    altura := -200.0
    pendiente := -70.37
    longitud_tuberia := 209.34
    z := 0.0
    num_estaciones := 1
    es_bajada := true
    tipo := "válvula de estrangulamiento"
    accesorios :=
      [ { nombre := "Salida de tanque previo", cantidad := 1, K := 0.5 }
      , { nombre := "Codos de ángulo dado", cantidad := 2, K := 0.53 }
      , { nombre := "Válvula de compuerta", cantidad := 0, K := 0.12 }
      , { nombre := "Salida a tanque receptor", cantidad := 1, K := 1.0 } ]
    K_total := 2.68
    notas := "Bajada pronunciada (70.37°). K de estrangulamiento = 1077.42."
    K_valvula_estrangulamiento := some 1077.42
    sub_segmentos := []
    tanque_rompe_presion := none }

/-- Tramo 7 (tramos.py lines 159-177): final descent. -/
def tramo7 : TramoDef :=
  { distancia := 57.60
    altura := -100.0
    pendiente := -60.06
    longitud_tuberia := 112.40
    z := 0.0
    num_estaciones := 1
    es_bajada := true
    tipo := "válvula de estrangulamiento"
    accesorios :=
      [ { nombre := "Salida de tanque previo", cantidad := 1, K := 0.5 }
      , { nombre := "Codos de 60°", cantidad := 2, K := 0.38 }
      , { nombre := "Válvula de compuerta", cantidad := 0, K := 0.12 }
      , { nombre := "Salida a tanque receptor", cantidad := 1, K := 1.0 } ]
    K_total := 2.37
    notas := "Bajada final a zona plana. K de estrangulamiento = 1076.84."
    K_valvula_estrangulamiento := some 1076.84
    sub_segmentos := []
    tanque_rompe_presion := none }

/-- Tramo 8 (tramos.py lines 182-217): underground run to the plant. -/
def tramo8 : TramoDef :=
  { distancia := 1837.50
    altura := 100.0
    pendiente := 0.0
    longitud_tuberia := 1911.52
    z := 100.0
    num_estaciones := 1
    es_bajada := false
    tipo := "bomba"
    accesorios :=
      [ { nombre := "Entrada al tanque", cantidad := 1, K := 0.5 }
      , { nombre := "Codos de 90°", cantidad := 4, K := 0.45 }
      , { nombre := "Codos de 60°", cantidad := 2, K := 0.375 }
      , { nombre := "Válvula de compuerta", cantidad := 1, K := 0.12 }
      , { nombre := "Válvula de retención", cantidad := 1, K := 1.5 }
      , { nombre := "Salida a tanque en empresa", cantidad := 1, K := 1.0 } ]
    K_total := 5.67
    notas := "Tramo subterráneo. Cruza carretera (700 m). 4 codos de 90° + 2 de 60°."
    K_valvula_estrangulamiento := none
    sub_segmentos :=
      [ { nombre := "Distancia previa a carretera", distancia := 250.0, altura := some 0 }
      , { nombre := "Bajada", distancia := 0.0, altura := some (-10) }
      , { nombre := "Tubería subterránea", distancia := 312.5, altura := some (-10) }
      , { nombre := "Cambio de dirección", distancia := 25.0, altura := some (-10) }
      , { nombre := "Distancia subterránea", distancia := 1187.5, altura := some (-10) }
      , { nombre := "Subida a empresa", distancia := 62.5, altura := some 100 }
      , { nombre := "Tramo de subida", distancia := 126.52, altura := none } ]
    tanque_rompe_presion := none }

/-- `obtener_definicion_tramos` (tramos.py lines 10-219): the dict keyed
`1..8`; a key outside `1..8` raises `KeyError` in Python, modelled `none`. -/
def obtener_definicion_tramos (num : ℕ) : Option TramoDef :=
  match num with
  | 1 => some tramo1
  | 2 => some tramo2
  | 3 => some tramo3
  | 4 => some tramo4
  | 5 => some tramo5
  | 6 => some tramo6
  | 7 => some tramo7
  | 8 => some tramo8
  | _ => none

/-- The loop body of `calcular_sistema_completo` (hidraulica.py
lines 254-264): invoke `calcular_tramo` on a registry record's fields with
the caller's five scalar parameters. -/
def calcular_tramo_def (ops : RealOps) (Q D rho mu epsilon : ℚ)
    (defn : TramoDef) : Resultado :=
  calcular_tramo ops Q D defn.longitud_tuberia defn.z rho mu epsilon
    defn.K_total defn.num_estaciones defn.es_bajada

/-- One merged per-segment entry of the dict returned by
`calcular_sistema_completo` (hidraulica.py lines 265-271): the
`calcular_tramo` result plus the echoed registry metadata. -/
structure ResultadoSistema where
  resultado : Resultado
  distancia : ℚ
  altura : ℚ
  pendiente : ℚ
  longitud_tuberia : ℚ
  tipo : String
  accesorios : List Accesorio
  notas : String
  deriving DecidableEq, Repr

/-- `calcular_sistema_completo` (hidraulica.py lines 226-275): iterate the
registry through `calcular_tramo`, echoing geometry metadata into each
result. -/
def calcular_sistema_completo (ops : RealOps) (Q D rho mu epsilon : ℚ)
    (num_tramo : ℕ) : Option ResultadoSistema :=
  (obtener_definicion_tramos num_tramo).map fun defn =>
    { resultado := calcular_tramo_def ops Q D rho mu epsilon defn
      distancia := defn.distancia
      altura := defn.altura
      pendiente := defn.pendiente
      longitud_tuberia := defn.longitud_tuberia
      tipo := defn.tipo
      accesorios := defn.accesorios
      notas := defn.notas }

/-- One emitted profile sample of the energy trace
(mapa_piezometrico.py lines 107-112): cumulative distance, terrain
elevation, EGL, HGL = EGL − hv, and gauge pressure = EGL − hv − elevation.
The purely presentational label strings are elided. -/
structure PuntoPerfil where
  dist : ℚ
  elev : ℚ
  egl : ℚ
  hgl : ℚ
  presion : ℚ
  deriving DecidableEq, Repr

/-- Gauge pressure as the trace derives it at every point
(mapa_piezometrico.py lines 111, 148): `EGL − hv − elevación`. -/
def presion_manometrica (egl hv elev : ℚ) : ℚ := egl - hv - elev

/-- The trace's per-station elevation target
(mapa_piezometrico.py line 72): `z_est = z_total / n_est if n_est > 0 else
z_total`, with `z_total = definiciones[num_tramo]['altura']`. -/
def z_est_traza (defn : TramoDef) : ℚ :=
  if defn.num_estaciones > 0 then defn.altura / (defn.num_estaciones : ℚ)
  else defn.altura

/-- Running EGL after `j` sub-steps of one station's walk
(mapa_piezometrico.py line 106): each sub-step subtracts `hf_est / 5`, and
the first sub-step additionally subtracts the whole minor loss `hm_est`. -/
def energia_sub (e0 hf_est hm_est : ℚ) : ℕ → ℚ
  | 0 => e0
  | j + 1 => energia_sub e0 hf_est hm_est j -
      (hf_est / 5 + if j = 0 then hm_est else 0)

/-- The profile point emitted at sub-step `j ∈ {1,…,5}` of one station
(mapa_piezometrico.py lines 97-112): `frac = j/5`, `dx = dist_sub·frac`,
`dz = z_est·frac`, EGL from `energia_sub`, HGL and gauge pressure derived. -/
def punto_sub_tramo (x_inicio elev0 z_est dist_sub hf_est hm_est hv e0 : ℚ)
    (j : ℕ) : PuntoPerfil :=
  let frac : ℚ := (j : ℚ) / 5
  let e := energia_sub e0 hf_est hm_est j
  let elev := elev0 + z_est * frac
  { dist := x_inicio + dist_sub * frac
    elev := elev
    egl := e
    hgl := e - hv
    presion := presion_manometrica e hv elev }

/-- The five profile points of one station's sub-sample walk
(mapa_piezometrico.py lines 97-117, the `for j in range(1, 6)` loop). -/
def puntos_estacion (x_inicio elev0 z_est dist_sub hf_est hm_est hv e0 : ℚ) :
    List PuntoPerfil :=
  (List.range 5).map fun k =>
    punto_sub_tramo x_inicio elev0 z_est dist_sub hf_est hm_est hv e0 (k + 1)

/-- The pressure-break tank's target EGL (mapa_piezometrico.py line 128):
`egl_meta = elev_acum + hv`, the EGL at which gauge pressure is zero. -/
def egl_meta (elev_acum hv : ℚ) : ℚ := elev_acum + hv

/-- The head the tank dissipates (mapa_piezometrico.py line 129):
`perdida = energia_actual − egl_meta`. -/
def perdida_tanque (energia elev_acum hv : ℚ) : ℚ :=
  energia - egl_meta elev_acum hv

/-- Per-station inputs of the trace walk, read off the registry record and
the segment's `calcular_tramo` result (mapa_piezometrico.py lines 64-91). -/
structure DatosEstacion where
  es_bajada : Bool
  tiene_tanque : Bool
  carga_estacion : ℚ
  hf_est : ℚ
  hm_est : ℚ
  z_est : ℚ
  dist_sub : ℚ
  hv : ℚ
  deriving DecidableEq, Repr

/-- Assembly of `DatosEstacion` from a registry record and its result
(mapa_piezometrico.py lines 64-91): `hf_est` is the Colebrook per-station
frictional loss, `hm_est` the minor loss, `z_est` comes from the registry's
`altura` (not from the model's `z`), `dist_sub = dist_tramo / n_est`, and
`tiene_tanque = definiciones.get('tanque_rompe_presion', True)`. -/
def datos_estacion (defn : TramoDef) (r : Resultado) (hv : ℚ) : DatosEstacion :=
  { es_bajada := r.es_bajada
    tiene_tanque := defn.tanque_rompe_presion.getD true
    carga_estacion := r.carga_estacion
    hf_est := r.perdidas_friccion_colebrook
    hm_est := r.perdidas_menores
    z_est := z_est_traza defn
    dist_sub := defn.distancia / (r.num_estaciones : ℚ)
    hv := hv }

/-- Running state of the energy-trace walk (mapa_piezometrico.py
lines 42-44): cumulative distance, cumulative terrain elevation, and the
current EGL. -/
structure EstadoTraza where
  dist_acum : ℚ
  elev_acum : ℚ
  energia : ℚ
  deriving DecidableEq, Repr

/-- One station of the energy-trace walk (mapa_piezometrico.py lines 73-153):
a pump segment jumps the EGL by the per-station total head at the station
start; the five sub-steps emit profile points; the state advances by
`dist_sub` and `z_est`; a descending segment then either resets the EGL to
`egl_meta` through the pressure-break tank (appending a visible vertical
point when the dissipated head exceeds `0.01`), or, without a tank, carries
the energy over unchanged.  Returns the new state and the emitted points. -/
def traza_estacion (d : DatosEstacion) (s : EstadoTraza) :
    EstadoTraza × List PuntoPerfil :=
  let e1 := if d.es_bajada then s.energia else s.energia + d.carga_estacion
  let pts := puntos_estacion s.dist_acum s.elev_acum d.z_est d.dist_sub
    d.hf_est d.hm_est d.hv e1
  let e2 := energia_sub e1 d.hf_est d.hm_est 5
  let elev' := s.elev_acum + d.z_est
  let dist' := s.dist_acum + d.dist_sub
  if d.es_bajada then
    if d.tiene_tanque then
      let perdida := perdida_tanque e2 elev' d.hv
      let e3 := e2 - perdida
      let pts' :=
        if |perdida| > 0.01 then
          pts ++ [{ dist := dist', elev := elev', egl := e3, hgl := e3 - d.hv,
                    presion := presion_manometrica e3 d.hv elev' }]
        else pts
      ({ dist_acum := dist', elev_acum := elev', energia := e3 }, pts')
    else
      ({ dist_acum := dist', elev_acum := elev', energia := e2 }, pts)
  else
    ({ dist_acum := dist', elev_acum := elev', energia := e2 }, pts)

/-- Concrete interpretation of the opaque numeric primitives, used to
evaluate the engine at closed inputs.  Its `fsolve` realises the documented
behaviour of an unsuccessful `scipy.optimize.fsolve` call: the returned
array is the result of the last iteration — here the seed itself — and no
exception is raised. -/
def ops0 : RealOps :=
  { log10 := fun _ => 1
    sqrt := fun _ => 1
    rpow := fun x _ => x
    fsolve := fun _ x0 => x0 }

/-- C4: for every `Re ≤ 0` the three friction-factor functions return
exactly `0.0` (a no-flow sentinel, not an error), and in `calcular_tramo`
a non-positive internally computed Reynolds number makes both per-station
frictional losses equal `0` without raising. -/
theorem C4_sentinel_re_no_positivo (ops : RealOps)
    (Re epsilon D Q D' L z rho mu K : ℚ) (n : ℤ) (b : Bool)
    (hRe : Re ≤ 0)
    (hRe' : reynolds rho (velocidad Q (area_seccion D')) D' mu ≤ 0) :
    (f_haaland ops Re epsilon D = 0 ∧ f_colebrook ops Re epsilon D = 0 ∧
      f_swamee_jain ops Re epsilon D = 0) ∧
    ((calcular_tramo ops Q D' L z rho mu epsilon K n b).perdidas_friccion_colebrook = 0 ∧
      (calcular_tramo ops Q D' L z rho mu epsilon K n b).perdidas_friccion_haaland = 0) := by
  constructor
  · refine ⟨?_, ?_, ?_⟩ <;> simp [f_haaland, f_colebrook, f_swamee_jain, hRe]
  · constructor <;>
      simp [calcular_tramo, f_colebrook, f_haaland, hRe', perdidas_darcy]

/-- Closed witness for `C4_sentinel_re_no_positivo` at `Re = 0` and a
zero-flow `calcular_tramo` input. -/
theorem C4_witness :
    ((0 : ℚ) ≤ 0 ∧ reynolds 1 (velocidad 0 (area_seccion 1)) 1 1 ≤ 0) ∧
    ((f_haaland ops0 0 0 1 = 0 ∧ f_colebrook ops0 0 0 1 = 0 ∧
        f_swamee_jain ops0 0 0 1 = 0) ∧
      ((calcular_tramo ops0 0 1 1 1 1 1 0 1 1 false).perdidas_friccion_colebrook = 0 ∧
        (calcular_tramo ops0 0 1 1 1 1 1 0 1 1 false).perdidas_friccion_haaland = 0)) :=
  ⟨⟨le_rfl, by norm_num [reynolds, velocidad, area_seccion, piQ]⟩,
    C4_sentinel_re_no_positivo ops0 0 0 1 0 1 1 1 1 1 1 1 false le_rfl
      (by norm_num [reynolds, velocidad, area_seccion, piQ])⟩

/-- C5: the Colebrook residual is total and safe against solver overshoot —
for `f ≤ 0` it returns the constant finite penalty `1.0` without consulting
`log10` or `sqrt` (its value is the same under every interpretation of the
numeric primitives), and for `f > 0` with `Re > 0`, `ε ≥ 0`, `D > 0` (and
`√f > 0`, true of the real square root on positives) the argument handed to
`log10` is strictly positive. -/
theorem C5_residual_resguardado (ops ops' : RealOps) (Re epsilon D f : ℚ) :
    (f ≤ 0 → ecuacion ops Re epsilon D f = 1 ∧
      ecuacion ops Re epsilon D f = ecuacion ops' Re epsilon D f) ∧
    (0 < f → 0 < Re → 0 ≤ epsilon → 0 < D → 0 < ops.sqrt f →
      0 < epsilon / D / 3.7 + 2.51 / (Re * ops.sqrt f) ∧
      ecuacion ops Re epsilon D f =
        1 / ops.sqrt f +
          2 * ops.log10 (epsilon / D / 3.7 + 2.51 / (Re * ops.sqrt f))) := by
  constructor
  · intro hf
    constructor <;> simp [ecuacion, hf]
  · intro hf hRe he hD hs
    constructor
    · have h1 : 0 ≤ epsilon / D / 3.7 :=
        div_nonneg (div_nonneg he hD.le) (by norm_num)
      have h2 : 0 < 2.51 / (Re * ops.sqrt f) :=
        div_pos (by norm_num) (mul_pos hRe hs)
      linarith
    · simp [ecuacion, not_le.mpr hf]

/-- Closed witness for `C5_residual_resguardado`: the penalty branch at
`f = -1` and the positive log argument at `f = 1`. -/
theorem C5_witness :
    ((-1 : ℚ) ≤ 0 ∧ ecuacion ops0 1 0 1 (-1) = 1) ∧
    (0 < (1 : ℚ) ∧ 0 < (0 : ℚ) / 1 / 3.7 + 2.51 / (1 * ops0.sqrt 1)) :=
  ⟨⟨by norm_num, ((C5_residual_resguardado ops0 ops0 1 0 1 (-1)).1 (by norm_num)).1⟩,
    ⟨by norm_num,
      ((C5_residual_resguardado ops0 ops0 1 0 1 1).2 (by norm_num) (by norm_num)
        le_rfl (by norm_num) (by norm_num [ops0])).1⟩⟩

/-- C6: for `num_estaciones = n ≥ 1` the per-station total head of
`calcular_tramo` is `|z|/n + f_colebrook·((L/n)/D)·v²/(2g) + K_total·v²/(2g)`
— the minor-loss term is NOT divided by `n` — and the segment total head is
the per-station head times `n`. -/
theorem C6_ensamblaje_carga (ops : RealOps) (Q D L z rho mu epsilon K : ℚ)
    (n : ℤ) (b : Bool) (hn : 1 ≤ n) :
    (calcular_tramo ops Q D L z rho mu epsilon K n b).carga_estacion =
      |z| / (n : ℚ) +
        (calcular_tramo ops Q D L z rho mu epsilon K n b).f_colebrook *
          ((L / (n : ℚ)) / D) * (velocidad Q (area_seccion D)) ^ 2 / (2 * g) +
        K * (velocidad Q (area_seccion D)) ^ 2 / (2 * g) ∧
    (calcular_tramo ops Q D L z rho mu epsilon K n b).carga_total =
      (calcular_tramo ops Q D L z rho mu epsilon K n b).carga_estacion * (n : ℚ) := by
  have hn' : (0 : ℤ) < n := lt_of_lt_of_le Int.zero_lt_one hn
  have hpos : (0 : ℚ) < (n : ℚ) := by exact_mod_cast hn'
  constructor
  · simp only [calcular_tramo, carga_total, perdidas_darcy, perdidas_menores,
      if_pos hn']
    rw [abs_div, abs_of_pos hpos]
  · simp only [calcular_tramo]

/-- Closed witness for `C6_ensamblaje_carga` at `n = 2`. -/
theorem C6_witness :
    (1 : ℤ) ≤ 2 ∧
    ((calcular_tramo ops0 1 1 1 (-2) 1 1 0 1 2 false).carga_estacion =
        |(-2 : ℚ)| / ((2 : ℤ) : ℚ) +
          (calcular_tramo ops0 1 1 1 (-2) 1 1 0 1 2 false).f_colebrook *
            ((1 / ((2 : ℤ) : ℚ)) / 1) * (velocidad 1 (area_seccion 1)) ^ 2 / (2 * g) +
          1 * (velocidad 1 (area_seccion 1)) ^ 2 / (2 * g) ∧
      (calcular_tramo ops0 1 1 1 (-2) 1 1 0 1 2 false).carga_total =
        (calcular_tramo ops0 1 1 1 (-2) 1 1 0 1 2 false).carga_estacion * ((2 : ℤ) : ℚ)) :=
  ⟨by decide, C6_ensamblaje_carga ops0 1 1 1 (-2) 1 1 0 1 2 false (by decide)⟩

/-- Every defined entry of `calcular_sistema_completo` carries the velocity,
area, kinetic head and Reynolds number computed from `(Q, D, ρ, μ)` alone —
no per-segment registry field enters them. -/
lemma sistema_campos_compartidos (ops : RealOps) (Q D rho mu epsilon : ℚ)
    (k : ℕ) (h1 : 1 ≤ k) (h8 : k ≤ 8) :
    (calcular_sistema_completo ops Q D rho mu epsilon k).map
        (fun r => r.resultado.velocidad) = some (velocidad Q (area_seccion D)) ∧
    (calcular_sistema_completo ops Q D rho mu epsilon k).map
        (fun r => r.resultado.area) = some (area_seccion D) ∧
    (calcular_sistema_completo ops Q D rho mu epsilon k).map
        (fun r => r.resultado.carga_cinetica) =
      some (carga_cinetica (velocidad Q (area_seccion D))) ∧
    (calcular_sistema_completo ops Q D rho mu epsilon k).map
        (fun r => r.resultado.reynolds) =
      some (reynolds rho (velocidad Q (area_seccion D)) D mu) := by
  interval_cases k <;> exact ⟨rfl, rfl, rfl, rfl⟩

/-- C8: flow continuity — for every fixed `(Q, D, ρ, μ, ε)` any two of the
eight per-segment results of `calcular_sistema_completo` carry the identical
velocity, and hence identical area, kinetic head and Reynolds number. -/
theorem C8_continuidad_de_flujo (ops : RealOps) (Q D rho mu epsilon : ℚ)
    (i j : ℕ) (hi1 : 1 ≤ i) (hi8 : i ≤ 8) (hj1 : 1 ≤ j) (hj8 : j ≤ 8) :
    (calcular_sistema_completo ops Q D rho mu epsilon i).map
        (fun r => r.resultado.velocidad) =
      (calcular_sistema_completo ops Q D rho mu epsilon j).map
        (fun r => r.resultado.velocidad) ∧
    (calcular_sistema_completo ops Q D rho mu epsilon i).map
        (fun r => r.resultado.area) =
      (calcular_sistema_completo ops Q D rho mu epsilon j).map
        (fun r => r.resultado.area) ∧
    (calcular_sistema_completo ops Q D rho mu epsilon i).map
        (fun r => r.resultado.carga_cinetica) =
      (calcular_sistema_completo ops Q D rho mu epsilon j).map
        (fun r => r.resultado.carga_cinetica) ∧
    (calcular_sistema_completo ops Q D rho mu epsilon i).map
        (fun r => r.resultado.reynolds) =
      (calcular_sistema_completo ops Q D rho mu epsilon j).map
        (fun r => r.resultado.reynolds) := by
  obtain ⟨vi, ai, ci, ri⟩ :=
    sistema_campos_compartidos ops Q D rho mu epsilon i hi1 hi8
  obtain ⟨vj, aj, cj, rj⟩ :=
    sistema_campos_compartidos ops Q D rho mu epsilon j hj1 hj8
  exact ⟨vi.trans vj.symm, ai.trans aj.symm, ci.trans cj.symm, ri.trans rj.symm⟩

/-- Closed witness for `C8_continuidad_de_flujo` comparing segment 1 (pump
climb) with segment 5 (gravity descent). -/
theorem C8_witness :
    ((1 : ℕ) ≤ 1 ∧ (1 : ℕ) ≤ 8 ∧ (1 : ℕ) ≤ 5 ∧ (5 : ℕ) ≤ 8) ∧
    (calcular_sistema_completo ops0 1 1 1 1 0 1).map
        (fun r => r.resultado.velocidad) =
      (calcular_sistema_completo ops0 1 1 1 1 0 5).map
        (fun r => r.resultado.velocidad) :=
  ⟨⟨by decide, by decide, by decide, by decide⟩,
    (C8_continuidad_de_flujo ops0 1 1 1 1 0 1 5 (by decide) (by decide)
      (by decide) (by decide)).1⟩

/-- C10: in the shipped registry every descending segment (5, 6, 7) passes
`z = 0.0` to the hydraulic model while its `altura` field is `-200`, `-200`,
`-100` respectively; consequently its per-station head is frictional plus
minor losses only (no elevation term) and its segment total equals that same
sum, while the energy trace's per-station elevation target is taken from
`altura`. -/
theorem C10_bajadas_z_cero (ops : RealOps) (Q D rho mu epsilon : ℚ) :
    (tramo5.z = 0 ∧ tramo6.z = 0 ∧ tramo7.z = 0) ∧
    (tramo5.altura = -200 ∧ tramo6.altura = -200 ∧ tramo7.altura = -100) ∧
    (tramo5.es_bajada = true ∧ tramo6.es_bajada = true ∧ tramo7.es_bajada = true) ∧
    (z_est_traza tramo5 = -200 ∧ z_est_traza tramo6 = -200 ∧
      z_est_traza tramo7 = -100) ∧
    ((calcular_tramo_def ops Q D rho mu epsilon tramo5).carga_estacion =
        (calcular_tramo_def ops Q D rho mu epsilon tramo5).perdidas_friccion_colebrook +
          (calcular_tramo_def ops Q D rho mu epsilon tramo5).perdidas_menores ∧
      (calcular_tramo_def ops Q D rho mu epsilon tramo6).carga_estacion =
        (calcular_tramo_def ops Q D rho mu epsilon tramo6).perdidas_friccion_colebrook +
          (calcular_tramo_def ops Q D rho mu epsilon tramo6).perdidas_menores ∧
      (calcular_tramo_def ops Q D rho mu epsilon tramo7).carga_estacion =
        (calcular_tramo_def ops Q D rho mu epsilon tramo7).perdidas_friccion_colebrook +
          (calcular_tramo_def ops Q D rho mu epsilon tramo7).perdidas_menores) ∧
    ((calcular_tramo_def ops Q D rho mu epsilon tramo5).carga_total =
        (calcular_tramo_def ops Q D rho mu epsilon tramo5).carga_estacion ∧
      (calcular_tramo_def ops Q D rho mu epsilon tramo6).carga_total =
        (calcular_tramo_def ops Q D rho mu epsilon tramo6).carga_estacion ∧
      (calcular_tramo_def ops Q D rho mu epsilon tramo7).carga_total =
        (calcular_tramo_def ops Q D rho mu epsilon tramo7).carga_estacion) := by
  refine ⟨⟨by norm_num [tramo5], by norm_num [tramo6], by norm_num [tramo7]⟩,
    ⟨by norm_num [tramo5], by norm_num [tramo6], by norm_num [tramo7]⟩,
    ⟨rfl, rfl, rfl⟩,
    ⟨by norm_num [z_est_traza, tramo5], by norm_num [z_est_traza, tramo6],
      by norm_num [z_est_traza, tramo7]⟩, ⟨?_, ?_, ?_⟩, ⟨?_, ?_, ?_⟩⟩ <;>
    norm_num [calcular_tramo_def, calcular_tramo, carga_total,
      tramo5, tramo6, tramo7]

/-- C7: after a descending station with a pressure-break tank, the walk's
post-tank EGL equals `egl_meta = elevación + carga cinética`, so the gauge
pressure derived from it (`EGL − hv − elevación`) is exactly zero; and the
vertical profile point the tank appends (when it appends one) carries gauge
pressure exactly zero. -/
theorem C7_tanque_presion_cero (d : DatosEstacion) (s : EstadoTraza)
    (hb : d.es_bajada = true) (ht : d.tiene_tanque = true) :
    (traza_estacion d s).1.energia =
      egl_meta (traza_estacion d s).1.elev_acum d.hv ∧
    presion_manometrica (traza_estacion d s).1.energia d.hv
      (traza_estacion d s).1.elev_acum = 0 ∧
    (((traza_estacion d s).2.getLast?).map PuntoPerfil.presion = some 0 ∨
      (traza_estacion d s).2 = puntos_estacion s.dist_acum s.elev_acum
        d.z_est d.dist_sub d.hf_est d.hm_est d.hv s.energia) := by
  simp only [traza_estacion, hb, ht, if_true]
  refine ⟨?_, ?_, ?_⟩
  · simp [egl_meta, perdida_tanque]
  · simp [presion_manometrica, egl_meta, perdida_tanque]
  · by_cases hc : |perdida_tanque
        (energia_sub s.energia d.hf_est d.hm_est 5)
        (s.elev_acum + d.z_est) d.hv| > 0.01
    · left
      rw [if_pos hc, List.getLast?_append_cons]
      simp [presion_manometrica, perdida_tanque, egl_meta]
    · right
      rw [if_neg hc]

/-- A concrete descending tank station for the C7 witness: EGL `10`, one
unit each of frictional and minor loss over the walk, elevation target
`-5`, kinetic head `1/2`. -/
def d0 : DatosEstacion :=
  { es_bajada := true
    tiene_tanque := true
    carga_estacion := 0
    hf_est := 1
    hm_est := 1
    z_est := -5
    dist_sub := 5
    hv := 1/2 }

/-- Initial walk state for the C7 witness. -/
def s0 : EstadoTraza :=
  { dist_acum := 0
    elev_acum := 0
    energia := 10 }

/-- Closed witness for `C7_tanque_presion_cero` at the concrete station
`d0`, `s0`. -/
theorem C7_witness :
    (d0.es_bajada = true ∧ d0.tiene_tanque = true) ∧
    presion_manometrica (traza_estacion d0 s0).1.energia d0.hv
      (traza_estacion d0 s0).1.elev_acum = 0 :=
  ⟨⟨rfl, rfl⟩, (C7_tanque_presion_cero d0 s0 rfl rfl).2.1⟩

/-- Each sub-step of the station walk lowers the running EGL when the
per-station frictional loss and the minor loss are non-negative. -/
lemma energia_sub_paso_le (e0 hf hm : ℚ) (hhf : 0 ≤ hf) (hhm : 0 ≤ hm)
    (j : ℕ) :
    energia_sub e0 hf hm (j + 1) ≤ energia_sub e0 hf hm j := by
  cases j with
  | zero => simp [energia_sub]; linarith
  | succ k => simp [energia_sub]; linarith

/-- C9: along one station's 5-sub-step walk, the EGL values of the emitted
profile points are non-increasing, given friction factor `≥ 0`, pipe length
`≥ 0`, diameter `> 0` and `K_total ≥ 0` (so that the station's frictional
loss and minor loss are non-negative). -/
theorem C9_disipacion_monotona (x0 elev0 z dsub hv e0 f L D v K : ℚ)
    (hf0 : 0 ≤ f) (hL : 0 ≤ L) (hD : 0 < D) (hK : 0 ≤ K) :
    List.Chain' (fun p q => q.egl ≤ p.egl)
      (puntos_estacion x0 elev0 z dsub (perdidas_darcy f L D v)
        (perdidas_menores K v) hv e0) := by
  have hg : (0 : ℚ) < 2 * g := by norm_num [g]
  have hhf : 0 ≤ perdidas_darcy f L D v :=
    div_nonneg
      (mul_nonneg (mul_nonneg hf0 (div_nonneg hL hD.le)) (sq_nonneg v)) hg.le
  have hhm : 0 ≤ perdidas_menores K v :=
    div_nonneg (mul_nonneg hK (sq_nonneg v)) hg.le
  unfold puntos_estacion
  rw [List.chain'_map, show (5 : ℕ) = Nat.succ 4 from rfl,
    List.chain'_range_succ]
  intro m _
  show (punto_sub_tramo x0 elev0 z dsub (perdidas_darcy f L D v)
      (perdidas_menores K v) hv e0 (m + 1 + 1)).egl ≤
    (punto_sub_tramo x0 elev0 z dsub (perdidas_darcy f L D v)
      (perdidas_menores K v) hv e0 (m + 1)).egl
  simp only [punto_sub_tramo]
  exact energia_sub_paso_le e0 _ _ hhf hhm (m + 1)

/-- Closed witness for `C9_disipacion_monotona` with unit losses. -/
theorem C9_witness :
    ((0 : ℚ) ≤ 1 ∧ (0 : ℚ) < 1) ∧
    List.Chain' (fun p q => q.egl ≤ p.egl)
      (puntos_estacion 0 0 0 1 (perdidas_darcy 1 1 1 1)
        (perdidas_menores 1 1) 1 10) :=
  ⟨⟨by norm_num, by norm_num⟩,
    C9_disipacion_monotona 0 0 0 1 1 10 1 1 1 1 1 (by norm_num) (by norm_num)
      (by norm_num) (by norm_num)⟩

/-- C1 counterexample: `f_colebrook` can silently return the Haaland seed.
`ops0.fsolve` realises the documented behaviour of an unsuccessful
`scipy.optimize.fsolve` call under `full_output=False` — the returned array
is the result of the last iteration, here the seed, and nothing is raised —
and `f_colebrook` then hands that unverified positive value to the caller
as the friction factor, with no distinguishable failure. -/
theorem C1_counterexample :
    f_colebrook ops0 1 0 1 = f_haaland ops0 1 0 1 ∧
    0 < f_haaland ops0 1 0 1 := by
  constructor
  · norm_num [f_colebrook, ops0]
  · norm_num [f_haaland, ops0]

/-- C1 amended: for every `Re > 0`, `f_colebrook` returns whatever the
root finder returns — the last iterate of `fsolve`, convergence checked
nowhere — as a plain number with no failure channel; in particular a solver
that cannot improve on its seed makes `f_colebrook` return the Haaland seed
silently. -/
theorem C1_sin_canal_de_fallo (ops : RealOps) (Re epsilon D : ℚ)
    (hRe : 0 < Re) :
    f_colebrook ops Re epsilon D =
      ops.fsolve (ecuacion ops Re epsilon D) (f_haaland ops Re epsilon D) := by
  simp [f_colebrook, not_le.mpr hRe]

/-- Closed witness for `C1_sin_canal_de_fallo` at `Re = 1`. -/
theorem C1_witness :
    (0 : ℚ) < 1 ∧
    f_colebrook ops0 1 0 1 =
      ops0.fsolve (ecuacion ops0 1 0 1) (f_haaland ops0 1 0 1) :=
  ⟨by norm_num, C1_sin_canal_de_fallo ops0 1 0 1 (by norm_num)⟩

/-- C2 counterexample: `area_seccion` does not raise for `D ≤ 0` — at
`D = -1` it returns the positive value `π/4` — and `calcular_tramo` does
not reject `num_estaciones = 0`: it computes a result whose per-station
length falls back to the full pipe length and whose per-station elevation
falls back to the full elevation change. -/
theorem C2_counterexample :
    area_seccion (-1) = 3.141592653589793 / 4 ∧
    (calcular_tramo ops0 1 1 10 5 998 1 0 2 0 false).longitud_estacion = 10 ∧
    (calcular_tramo ops0 1 1 10 5 998 1 0 2 0 false).z_estacion = 5 := by
  refine ⟨by norm_num [area_seccion, piQ], ?_, ?_⟩ <;>
    norm_num [calcular_tramo]

/-- C2 amended: the engine does not fail fast on invalid geometry —
`area_seccion` is total and returns the strictly positive value `π·D²/4`
even for `D < 0`, and `calcular_tramo` with `num_estaciones ≤ 0` silently
computes a result with `L_estacion = L` and `z_estacion = z` instead of
rejecting the input. -/
theorem C2_sin_fallo_rapido (ops : RealOps) (Q D L z rho mu epsilon K : ℚ)
    (Dneg : ℚ) (n : ℤ) (b : Bool) (hn : n ≤ 0) (hD : Dneg < 0) :
    0 < area_seccion Dneg ∧
    (calcular_tramo ops Q D L z rho mu epsilon K n b).longitud_estacion = L ∧
    (calcular_tramo ops Q D L z rho mu epsilon K n b).z_estacion = z := by
  refine ⟨?_, ?_, ?_⟩
  · have h2 : 0 < Dneg * Dneg := mul_pos_of_neg_of_neg hD hD
    have h3 : 0 < Dneg ^ 2 := by rw [sq]; exact h2
    have hpi : (0 : ℚ) < piQ := by norm_num [piQ]
    unfold area_seccion
    positivity
  · simp [calcular_tramo, not_lt.mpr hn]
  · simp [calcular_tramo, not_lt.mpr hn]

/-- Closed witness for `C2_sin_fallo_rapido` at `D = -1`,
`num_estaciones = 0`. -/
theorem C2_witness :
    ((0 : ℤ) ≤ 0 ∧ (-1 : ℚ) < 0) ∧
    (0 < area_seccion (-1) ∧
      (calcular_tramo ops0 1 1 10 5 998 1 0 2 0 false).longitud_estacion = 10 ∧
      (calcular_tramo ops0 1 1 10 5 998 1 0 2 0 false).z_estacion = 5) :=
  ⟨⟨le_rfl, by norm_num⟩,
    C2_sin_fallo_rapido ops0 1 1 10 5 998 1 0 2 (-1) 0 false le_rfl (by norm_num)⟩

/-- C3 counterexample: at the spec's reference parameters
(`Q = 0.025`, `D = 0.1541`, `ρ = 998`, `μ = 0.001`, `ε = 0.000046`),
changing segment 6's `num_estaciones` from 1 to 2 leaves the per-station
pump power invariant — it is `0.0` in both cases, because segment 6 is
descending (`es_bajada`), contradicting the claim that the power must
change. -/
theorem C3_counterexample :
    (calcular_tramo ops0 0.025 0.1541 tramo6.longitud_tuberia tramo6.z 998
        0.001 0.000046 tramo6.K_total 2 tramo6.es_bajada).potencia_kw =
      (calcular_tramo ops0 0.025 0.1541 tramo6.longitud_tuberia tramo6.z 998
        0.001 0.000046 tramo6.K_total 1 tramo6.es_bajada).potencia_kw ∧
    (calcular_tramo ops0 0.025 0.1541 tramo6.longitud_tuberia tramo6.z 998
        0.001 0.000046 tramo6.K_total 1 tramo6.es_bajada).potencia_kw = 0 := by
  constructor <;> norm_num [calcular_tramo, tramo6]

/-- C3 amended: for segment 6, with every other input held fixed, moving
`num_estaciones` from 1 to 2 halves the per-station pipe length and the
per-station elevation, but leaves the per-station pump power invariant at
`0.0`, since the segment is descending and uses a throttling valve, not a
pump. -/
theorem C3_tramo6_escenario (ops : RealOps) (Q D rho mu epsilon : ℚ) :
    (calcular_tramo ops Q D tramo6.longitud_tuberia tramo6.z rho mu epsilon
        tramo6.K_total 2 tramo6.es_bajada).longitud_estacion =
      (calcular_tramo ops Q D tramo6.longitud_tuberia tramo6.z rho mu epsilon
        tramo6.K_total 1 tramo6.es_bajada).longitud_estacion / 2 ∧
    (calcular_tramo ops Q D tramo6.longitud_tuberia tramo6.z rho mu epsilon
        tramo6.K_total 2 tramo6.es_bajada).z_estacion =
      (calcular_tramo ops Q D tramo6.longitud_tuberia tramo6.z rho mu epsilon
        tramo6.K_total 1 tramo6.es_bajada).z_estacion / 2 ∧
    (calcular_tramo ops Q D tramo6.longitud_tuberia tramo6.z rho mu epsilon
        tramo6.K_total 1 tramo6.es_bajada).potencia_kw = 0 ∧
    (calcular_tramo ops Q D tramo6.longitud_tuberia tramo6.z rho mu epsilon
        tramo6.K_total 2 tramo6.es_bajada).potencia_kw =
      (calcular_tramo ops Q D tramo6.longitud_tuberia tramo6.z rho mu epsilon
        tramo6.K_total 1 tramo6.es_bajada).potencia_kw := by
  refine ⟨?_, ?_, ?_, ?_⟩ <;> norm_num [calcular_tramo, tramo6]
